import Mathlib

/-!
Verification of the node-classification pipeline of `symbolic_plane_analysis`.

The source (`src/symbolic_plane_analysis/node_analysis.py` and
`src/symbolic_plane_analysis/geometry.py`) is a polars/shapely pipeline.
This file is a shallow embedding: coordinates are pairs of rationals,
line geometries are lists of vertices, dataframes are lists of rows, and
the external computational-geometry primitives (buffering, polygon
splitting, line/polygon intersection) are abstracted as oracle inputs,
exactly at the boundaries where the source calls shapely.  Python's
`round(x, n)` and polars' `.round(n)` are modelled as round-half-up on
rationals; no claim below depends on tie behaviour.
-/

namespace SymbolicPlane

attribute [local semireducible] Rat.add Rat.sub Rat.mul Rat.inv

/-- A 2D coordinate, as in the source a pair of (floating point) numbers. -/
abbrev Coord := ℚ × ℚ

/-- Rounding to 4 decimal places, the source's `round(c, 4)` /
polars `.round(4)` coordinate canonicalization. -/
def round4 (q : ℚ) : ℚ := ((round (q * 10000) : ℤ) : ℚ) / 10000

/-- Rounding to 2 decimal places, polars `.round(2)` applied to angles. -/
def round2 (q : ℚ) : ℚ := ((round (q * 100) : ℤ) : ℚ) / 100

/-- Rounding to 3 decimal places, polars `.round(3)` applied to summary values. -/
def round3 (q : ℚ) : ℚ := ((round (q * 1000) : ℤ) : ℚ) / 1000

/-- Round both components of a coordinate to 4 decimal places. -/
def roundCoord (p : Coord) : Coord := (round4 p.1, round4 p.2)

/-- Embedding of `shapely.get_point(line, i)`: the vertex of a line at
index `i`, or none when the index is out of range. -/
def get_point (l : List Coord) (i : Nat) : Option Coord := l[i]?

/-- Embedding of `create_lines_dataframe` (node_analysis.py:16-42): one row
per input line, in order, holding the original geometry together with
`shapely.get_point(line, 0)` and `shapely.get_point(line, 1)` — the
vertices at indices 0 and 1. -/
def create_lines_dataframe (linestring_array : List (List Coord)) :
    List (List Coord × Option Coord × Option Coord) :=
  linestring_array.map (fun l => (l, get_point l 0, get_point l 1))

/-- Modelled from the spec (§4.1), for comparison with
`create_lines_dataframe`: one row per line holding the geometry and its
two terminal endpoints, i.e. its first and its last vertex. -/
def lineTableSpec (linestring_array : List (List Coord)) :
    List (List Coord × Option Coord × Option Coord) :=
  linestring_array.map (fun l => (l, l.head?, l.getLast?))

/-- All vertex coordinates of all lines (`shapely.get_coordinates`),
each rounded to 4 decimal places as in `create_nodes_dataframe`. -/
def allRoundedVertices (linestring_array : List (List Coord)) : List Coord :=
  linestring_array.flatten.map roundCoord

/-- Embedding of `create_nodes_dataframe` (node_analysis.py:45-83): take
every vertex of every line, round to 4 decimals, count occurrences of each
rounded coordinate (`pl.count over [x, y]`), drop coordinates occurring
exactly twice, and keep one row per distinct coordinate. -/
def create_nodes_dataframe (linestring_array : List (List Coord)) :
    List (Coord × Nat) :=
  (allRoundedVertices linestring_array).dedup.filterMap fun c =>
    if (allRoundedVertices linestring_array).count c = 2 then none
    else some (c, (allRoundedVertices linestring_array).count c)

/-- Embedding of `_filter_endpoint_nodes` (node_analysis.py:86-121).  The
determination of which lines intersect the node's buffer polygon is the
external shapely call; here `intersecting_lines` is that already-computed
list.  When exactly one line intersects, the node is a dead end and the
incident list is empty.  Otherwise the source walks every vertex of every
intersecting line, rounds it to 4 decimals, skips it when it equals the
node coordinate, and emits the segment from that rounded vertex to the
node coordinate. -/
def filter_endpoint_nodes (node_point : Coord)
    (intersecting_lines : List (List Coord)) : List (List Coord) :=
  if intersecting_lines.length = 1 then []
  else
    intersecting_lines.flatMap fun line =>
      ((line.map roundCoord).filter (fun c => decide (c ≠ node_point))).map
        (fun c => [c, node_point])

/-- Squared euclidean distance between two coordinates. -/
def distSq (a b : Coord) : ℚ := (a.1 - b.1) ^ 2 + (a.2 - b.2) ^ 2

/-- Modelled from the spec (§4.3), for comparison with
`filter_endpoint_nodes`: every intersecting line that does not pass
exactly through the node contributes one synthesized segment from its
nearest vertex (rounded to 4 decimals) to the node; a line passing
exactly through the node is included as-is. -/
def specFilterEndpoint (node_point : Coord)
    (intersecting_lines : List (List Coord)) : List (List Coord) :=
  if intersecting_lines.length = 1 then []
  else
    intersecting_lines.flatMap fun line =>
      if node_point ∈ line.map roundCoord then [line]
      else
        match line.argmin (fun v => distSq v node_point) with
        | some v => [[roundCoord v, node_point]]
        | none => []

/-- A node row entering `_prepare_node_dataframe`: its coordinate, its
vertex-occurrence count `num_coords`, and the lines joined to it by the
rounded-endpoint equi-join. -/
structure RawNode where
  coord : Coord
  num_coords : Nat
  node_lines : List (List Coord)
deriving DecidableEq

/-- A node after incident-line resolution. -/
structure PNode where
  coord : Coord
  node_lines : List (List Coord)
deriving DecidableEq

/-- The incident-line resolution step of `_prepare_node_dataframe`
(node_analysis.py:163-177): a node with `num_coords == 1` has its line
list recomputed by `filter_endpoint_nodes` from the lines intersecting its
buffer (the shapely intersection is abstracted as the oracle
`intersect`); any other node keeps its joined lines. -/
def resolveNode (intersect : Coord → List (List Coord)) (n : RawNode) : PNode :=
  { coord := n.coord
    node_lines :=
      if n.num_coords = 1 then filter_endpoint_nodes n.coord (intersect n.coord)
      else n.node_lines }

/-- Embedding of `_prepare_node_dataframe` (node_analysis.py:124-183)
after the join/aggregation: resolve each node's incident lines and keep
only nodes with `num_lines > 0`. -/
def prepare_nodes (intersect : Coord → List (List Coord))
    (nodes : List RawNode) : List PNode :=
  (nodes.map (resolveNode intersect)).filter fun m =>
    decide (0 < m.node_lines.length)

/-- Embedding of `calculate_node_angles` (geometry.py:87-102).  The
planar decomposition of the buffer polygon into sectors
(`_split_polygon_by_linestrings`, backed by shapely's linemerge /
unary_union / polygonize) is the external geometry primitive; the
source then maps each sector to `(sector.area / buffer_polygon.area) * 360`.
Here the decomposition is abstracted by its output, the list of sector
areas, together with the buffer polygon's area. -/
def calculate_node_angles (bufferArea : ℚ) (sectorAreas : List ℚ) : List ℚ :=
  sectorAreas.map fun a => a / bufferArea * 360

/-- The `degrees` column of `_create_analysis_dataframe`
(node_analysis.py:220-229): the node angles rounded to 2 decimals. -/
def nodeDegrees (bufferArea : ℚ) (sectorAreas : List ℚ) : List ℚ :=
  (calculate_node_angles bufferArea sectorAreas).map round2

/-- Polars `is_between(lo, hi)` (inclusive on both ends). -/
def isBetween (a lo hi : ℚ) : Bool := decide (lo ≤ a ∧ a ≤ hi)

/-- Are all angles within `angle_buffer` of 90 degrees
(the X-junction angle test of node_analysis.py:235-241)? -/
def allNear90 (tol : ℚ) (degrees : List ℚ) : Bool :=
  degrees.all fun a => isBetween a (90 - tol) (90 + tol)

/-- Are all angles within `angle_buffer` of 90 or of 180 degrees
(the T-junction angle test of node_analysis.py:246-256, whose negation
is the Y-junction test)? -/
def allNear90Or180 (tol : ℚ) (degrees : List ℚ) : Bool :=
  degrees.all fun a =>
    isBetween a (90 - tol) (90 + tol) || isBetween a (180 - tol) (180 + tol)

/-- Is some angle within `angle_buffer` of 180 degrees
(the irregular-Y test of node_analysis.py:284-293)? -/
def anyNear180 (tol : ℚ) (degrees : List ℚ) : Bool :=
  degrees.any fun a => isBetween a (180 - tol) (180 + tol)

/-- The `node_type` column of `_create_analysis_dataframe`
(node_analysis.py:231-275): the when/then chain classifying a node from
its `num_lines` and its rounded angle list. -/
def nodeType (tol : ℚ) (numLines : Nat) (degrees : List ℚ) : String :=
  if numLines = 4 ∧ allNear90 tol degrees = true then "X"
  else if numLines = 3 ∧ allNear90Or180 tol degrees = true then "T"
  else if numLines = 3 ∧ ¬allNear90Or180 tol degrees = true then "Y"
  else "#"

/-- The `regularity` column of `_create_analysis_dataframe`
(node_analysis.py:277-297). -/
def nodeRegularity (tol : ℚ) (numLines : Nat) (degrees : List ℚ) : String :=
  if nodeType tol numLines degrees = "T" then "irregular"
  else if nodeType tol numLines degrees = "X" ∨ nodeType tol numLines degrees = "#"
    then "regular"
  else if nodeType tol numLines degrees = "Y" ∧ anyNear180 tol degrees = true
    then "irregular"
  else "regular"

/-- The adjusted `num_lines` column of `_create_analysis_dataframe`
(node_analysis.py:299-304): irregular nodes have one subtracted. -/
def recordedNumLines (tol : ℚ) (numLines : Nat) (degrees : List ℚ) : Nat :=
  if nodeRegularity tol numLines degrees = "irregular" then numLines - 1
  else numLines

/-- A prepared node as it enters `_create_analysis_dataframe`, holding
the data the analysis reads: its coordinate, its incident-line count, and
the output of the external sector decomposition of its buffer polygon
(the buffer polygon's area and the sub-polygon areas). -/
structure PNodeData where
  coord : Coord
  num_lines : Nat
  bufferArea : ℚ
  sectorAreas : List ℚ
deriving DecidableEq

/-- One row of the node analysis dataframe
(node_analysis.py:305: geometry, degrees, num_lines, node_type, regularity). -/
structure AnalysisRow where
  coord : Coord
  degrees : List ℚ
  num_lines : Nat
  node_type : String
  regularity : String
deriving DecidableEq

/-- The row `_create_analysis_dataframe` computes for one prepared node. -/
def analysisRow (tol : ℚ) (n : PNodeData) : AnalysisRow :=
  let degrees := nodeDegrees n.bufferArea n.sectorAreas
  { coord := n.coord
    degrees := degrees
    num_lines := recordedNumLines tol n.num_lines degrees
    node_type := nodeType tol n.num_lines degrees
    regularity := nodeRegularity tol n.num_lines degrees }

/-- Embedding of `_create_analysis_dataframe` (node_analysis.py:186-308)
over prepared nodes: one analysis row per prepared node, with no further
filtering. -/
def create_analysis_dataframe (tol : ℚ) (nodes : List PNodeData) :
    List AnalysisRow :=
  nodes.map (analysisRow tol)

/-- Division as polars computes it on aggregates: a zero denominator
yields a non-finite float (NaN for 0/0), modelled as `none`. -/
def safeDiv (a b : ℚ) : Option ℚ := if b = 0 then none else some (a / b)

/-- Count of individual angles across all rows lying in `[lo, hi]`
(the exploded `is_between` sums of node_analysis.py:344-353). -/
def countNear (lo hi : ℚ) (rows : List AnalysisRow) : Nat :=
  ((rows.map AnalysisRow.degrees).flatten).countP fun a =>
    decide (lo ≤ a ∧ a ≤ hi)

/-- Count of rows with the given `node_type`. -/
def countType (t : String) (rows : List AnalysisRow) : Nat :=
  rows.countP fun r => decide (r.node_type = t)

/-- Sample variance of the `num_lines` column, null when polars'
`std` (ddof 1) is null, i.e. on fewer than two rows.  The source stores
the sample standard deviation — the square root of this value, which is
irrational in general; only its null-vs-value status is used below. -/
def sampleVarNumLines (rows : List AnalysisRow) : Option ℚ :=
  if rows.length ≤ 1 then none
  else
    let m : ℚ := (rows.map fun r => (r.num_lines : ℚ)).sum / rows.length
    some (((rows.map fun r => ((r.num_lines : ℚ) - m) ^ 2).sum) /
      ((rows.length : ℚ) - 1))

/-- The one summary row per dataset (node_analysis.py:311-365). -/
structure SummaryRow where
  terrain : String
  n_bar : Option ℚ
  n_bar_std : Option ℚ
  node_count : Nat
  ratio_T : Option ℚ
  ratio_Y : Option ℚ
  ratio_X : Option ℚ
  ratio_hash : Option ℚ
  ratio_180_90 : Option ℚ
  regularity : Option ℚ
deriving DecidableEq

/-- Embedding of `_create_node_summary_row` (node_analysis.py:311-365):
a single select of aggregates over the analysis dataframe.  On an empty
dataframe polars returns one row whose mean/std are null and whose
`0 / 0` ratios are NaN; both are `none` here. -/
def create_node_summary_row (tol : ℚ) (rowName : String)
    (rows : List AnalysisRow) : SummaryRow :=
  let n : ℚ := rows.length
  { terrain := rowName
    n_bar := (safeDiv (rows.map fun r => (r.num_lines : ℚ)).sum n).map round3
    n_bar_std := (sampleVarNumLines rows).map round3
    node_count := rows.length
    ratio_T := (safeDiv (countType "T" rows) n).map round3
    ratio_Y := (safeDiv (countType "Y" rows) n).map round3
    ratio_X := (safeDiv (countType "X" rows) n).map round3
    ratio_hash := (safeDiv (countType "#" rows) n).map round3
    ratio_180_90 :=
      (safeDiv (countNear (180 - tol) (180 + tol) rows)
        (countNear (90 - tol) (90 + tol) rows)).map round3
    regularity :=
      (safeDiv (rows.countP fun r => decide (r.regularity = "regular")) n).map
        round3 }

/-- The external geometry collaborator used by `clip_lines_to_points`
(geometry.py:34-64): `buffer point radius quad_segs` builds a disk
polygon, `overlay lines buffers` is the geopandas overlay clipping the
lines to the buffer polygons. -/
structure GeomOps where
  buffer : Coord → ℚ → Nat → List Coord
  overlay : List (List Coord) → List (List Coord) → List (List Coord)

/-- Embedding of `clip_lines_to_points` (geometry.py:34-64): the buffers
are built with `shapely.buffer(point_array, 2, quad_segs=16)` — the radius
is the literal `2`, and the `buffer_size` parameter is never read. -/
def clip_lines_to_points (ops : GeomOps) (point_array : List Coord)
    (linestring_array : List (List Coord)) (buffer_size : ℤ) :
    List (List Coord) :=
  ops.overlay linestring_array (point_array.map fun p => ops.buffer p 2 16)

/-! Helper lemmas. -/

/-- An inclusive `is_between` test around a centre is the absolute-value
nearness test of the spec. -/
theorem isBetween_near_iff (a c tol : ℚ) :
    isBetween a (c - tol) (c + tol) = true ↔ |a - c| ≤ tol := by
  simp only [isBetween, decide_eq_true_eq, abs_sub_le_iff]
  constructor
  · rintro ⟨h1, h2⟩
    exact ⟨by linarith, by linarith⟩
  · rintro ⟨h1, h2⟩
    exact ⟨by linarith, by linarith⟩

/-- Propositional reading of the X-junction angle test. -/
theorem allNear90_iff (tol : ℚ) (ds : List ℚ) :
    allNear90 tol ds = true ↔ ∀ a ∈ ds, |a - 90| ≤ tol := by
  simp only [allNear90, List.all_eq_true, isBetween_near_iff]

/-- Propositional reading of the T-junction angle test. -/
theorem allNear90Or180_iff (tol : ℚ) (ds : List ℚ) :
    allNear90Or180 tol ds = true ↔
      ∀ a ∈ ds, |a - 90| ≤ tol ∨ |a - 180| ≤ tol := by
  simp only [allNear90Or180, List.all_eq_true, Bool.or_eq_true,
    isBetween_near_iff]

/-- Propositional reading of the irregular-Y angle test. -/
theorem anyNear180_iff (tol : ℚ) (ds : List ℚ) :
    anyNear180 tol ds = true ↔ ∃ a ∈ ds, |a - 180| ≤ tol := by
  simp only [anyNear180, List.any_eq_true, isBetween_near_iff]

/-! Claim theorems. -/

/-- C1, counterexample: at tolerance 15 a node carrying 4 incident lines
but only 3 sectors (all of them near 90 degrees) is classified `X` by the
source, while the claim's rule — `X` iff exactly 4 sectors all near 90 —
classifies it `OTHER`: the claimed iff is false at this input. -/
theorem c1_counterexample :
    ¬(nodeType 15 4 [90, 90, 90] = "X" ↔
      ([90, 90, 90] : List ℚ).length = 4 ∧
        ∀ a ∈ ([90, 90, 90] : List ℚ), |a - 90| ≤ 15) := by
  decide

/-- C1 (amended): the junction type is assigned from the incident-line
count `num_lines`, not from the sector count: `X` iff `num_lines = 4` and
every angle is within tolerance of 90; `T` iff `num_lines = 3` and every
angle is within tolerance of 90 or of 180; `Y` iff `num_lines = 3` and
not every angle is; `OTHER` in every remaining case. -/
theorem c1_node_type_amended :
    ∀ (tol : ℚ) (n : Nat) (ds : List ℚ),
      (nodeType tol n ds = "X" ↔ n = 4 ∧ ∀ a ∈ ds, |a - 90| ≤ tol) ∧
      (nodeType tol n ds = "T" ↔
        n = 3 ∧ ∀ a ∈ ds, |a - 90| ≤ tol ∨ |a - 180| ≤ tol) ∧
      (nodeType tol n ds = "Y" ↔
        n = 3 ∧ ¬∀ a ∈ ds, |a - 90| ≤ tol ∨ |a - 180| ≤ tol) ∧
      (nodeType tol n ds = "#" ↔
        ¬(n = 4 ∧ ∀ a ∈ ds, |a - 90| ≤ tol) ∧ n ≠ 3) := by
  intro tol n ds
  have h90 := allNear90_iff tol ds
  have h9018 := allNear90Or180_iff tol ds
  unfold nodeType
  split_ifs with h1 h2 h3
  · obtain ⟨hn, hb⟩ := h1
    refine ⟨iff_of_true rfl ⟨hn, h90.mp hb⟩, iff_of_false (by decide) ?_,
      iff_of_false (by decide) ?_, iff_of_false (by decide) ?_⟩
    · rintro ⟨h, _⟩
      omega
    · rintro ⟨h, _⟩
      omega
    · rintro ⟨hc, _⟩
      exact hc ⟨hn, h90.mp hb⟩
  · obtain ⟨hn, hb⟩ := h2
    refine ⟨iff_of_false (by decide) ?_, iff_of_true rfl ⟨hn, h9018.mp hb⟩,
      iff_of_false (by decide) ?_, iff_of_false (by decide) ?_⟩
    · rintro ⟨hc, hall⟩
      exact h1 ⟨hc, h90.mpr hall⟩
    · rintro ⟨_, hno⟩
      exact hno (h9018.mp hb)
    · rintro ⟨_, hn3⟩
      exact hn3 hn
  · obtain ⟨hn, hb⟩ := h3
    refine ⟨iff_of_false (by decide) ?_, iff_of_false (by decide) ?_,
      iff_of_true rfl ⟨hn, fun hall => hb (h9018.mpr hall)⟩,
      iff_of_false (by decide) ?_⟩
    · rintro ⟨hc, hall⟩
      exact h1 ⟨hc, h90.mpr hall⟩
    · rintro ⟨_, hall⟩
      exact hb (h9018.mpr hall)
    · rintro ⟨_, hn3⟩
      exact hn3 hn
  · have hn3 : n ≠ 3 := by
      intro h
      by_cases hb : allNear90Or180 tol ds = true
      · exact h2 ⟨h, hb⟩
      · exact h3 ⟨h, hb⟩
    refine ⟨iff_of_false (by decide) ?_, iff_of_false (by decide) ?_,
      iff_of_false (by decide) ?_,
      iff_of_true rfl ⟨fun hc => h1 ⟨hc.1, h90.mpr hc.2⟩, hn3⟩⟩
    · rintro ⟨hc, hall⟩
      exact h1 ⟨hc, h90.mpr hall⟩
    · rintro ⟨h, _⟩
      exact hn3 h
    · rintro ⟨h, _⟩
      exact hn3 h

/-- C2: a node is irregular exactly when it is a `T`, or a `Y` with some
angle within tolerance of 180; every other node (including `X` and
`OTHER`) is regular; the recorded `num_lines` is decremented by one
exactly on irregular nodes; and the spec's scenario — angles
[90, 90, 180] at tolerance 15 — yields a `T`, irregular, with
`num_lines` recorded as 2. -/
theorem c2_regularity_adjustment :
    (∀ (tol : ℚ) (n : Nat) (ds : List ℚ),
      (nodeRegularity tol n ds = "irregular" ↔
        nodeType tol n ds = "T" ∨
          (nodeType tol n ds = "Y" ∧ ∃ a ∈ ds, |a - 180| ≤ tol)) ∧
      (nodeRegularity tol n ds = "regular" ∨
        nodeRegularity tol n ds = "irregular") ∧
      recordedNumLines tol n ds =
        (if nodeRegularity tol n ds = "irregular" then n - 1 else n)) ∧
    nodeType 15 3 [90, 90, 180] = "T" ∧
    nodeRegularity 15 3 [90, 90, 180] = "irregular" ∧
    recordedNumLines 15 3 [90, 90, 180] = 2 := by
  refine ⟨?_, by decide, by decide, by decide⟩
  intro tol n ds
  have h180 := anyNear180_iff tol ds
  refine ⟨?_, ?_, rfl⟩
  · unfold nodeRegularity
    split_ifs with g1 g2 g3
    · exact iff_of_true rfl (Or.inl g1)
    · apply iff_of_false (by decide)
      rintro (hT | ⟨hY, _⟩)
      · exact g1 hT
      · rcases g2 with h | h
        · exact absurd (h.symm.trans hY) (by decide)
        · exact absurd (h.symm.trans hY) (by decide)
    · exact iff_of_true rfl (Or.inr ⟨g3.1, h180.mp g3.2⟩)
    · apply iff_of_false (by decide)
      rintro (hT | ⟨hY, hex⟩)
      · exact g1 hT
      · exact g3 ⟨hY, h180.mpr hex⟩
  · unfold nodeRegularity
    split_ifs <;> first | exact Or.inr rfl | exact Or.inl rfl

/-- Mapping `Prod.fst` over the count-and-filter step of the node locator
recovers a plain filter of the deduplicated coordinates. -/
theorem map_fst_filterMap_count (l : List Coord) (cnt : Coord → Nat) :
    ((l.filterMap fun c =>
        if cnt c = 2 then none else some (c, cnt c)).map Prod.fst) =
      l.filter fun c => decide (¬cnt c = 2) := by
  induction l with
  | nil => rfl
  | cons a t ih =>
    by_cases h : cnt a = 2
    · simp [List.filterMap_cons, List.filter_cons, h, ih]
    · simp [List.filterMap_cons, List.filter_cons, h, ih]

/-- C3: the node locator reads every vertex of every line; a pair
`(c, k)` is emitted iff `c` is a rounded vertex coordinate, `k` is its
occurrence count among all rounded vertices, and `k` is not 2 (counts of
1 and of 3 or more are kept); and each distinct rounded coordinate is
emitted at most once. -/
theorem c3_node_locator :
    (∀ (lines : List (List Coord)) (c : Coord) (k : Nat),
      (c, k) ∈ create_nodes_dataframe lines ↔
        c ∈ allRoundedVertices lines ∧
          k = (allRoundedVertices lines).count c ∧ k ≠ 2) ∧
    ∀ lines : List (List Coord),
      ((create_nodes_dataframe lines).map Prod.fst).Nodup := by
  constructor
  · intro lines c k
    unfold create_nodes_dataframe
    rw [List.mem_filterMap]
    constructor
    · rintro ⟨a, ha, hfa⟩
      by_cases h : (allRoundedVertices lines).count a = 2
      · rw [if_pos h] at hfa
        exact absurd hfa (by simp)
      · rw [if_neg h] at hfa
        obtain ⟨rfl, rfl⟩ : a = c ∧ (allRoundedVertices lines).count a = k := by
          simpa using hfa
        exact ⟨List.mem_dedup.mp ha, rfl, h⟩
    · rintro ⟨hc, rfl, hk⟩
      exact ⟨c, List.mem_dedup.mpr hc, by rw [if_neg hk]⟩
  · intro lines
    unfold create_nodes_dataframe
    rw [map_fst_filterMap_count]
    exact (List.nodup_dedup _).filter _

/-- C4, counterexample: on a line with three vertices the source records
the vertices at indices 0 and 1, while the claim calls for the first and
the last vertex; the two disagree on `[(0,0), (1,0), (2,0)]`. -/
theorem c4_counterexample :
    create_lines_dataframe [[((0 : ℚ), (0 : ℚ)), (1, 0), (2, 0)]] ≠
      lineTableSpec [[((0 : ℚ), (0 : ℚ)), (1, 0), (2, 0)]] := by
  decide

/-- C4 (amended): the line table has exactly one row per input line, in
input order, and each row carries the original geometry together with the
line's vertices at indices 0 and 1 (which both exist when the line has at
least two vertices) — the second recorded point is the second vertex, not
the last one. -/
theorem c4_line_table_amended :
    ∀ lines : List (List Coord),
      (create_lines_dataframe lines).length = lines.length ∧
      ∀ (i : Nat) (l : List Coord), lines[i]? = some l → 2 ≤ l.length →
        ∃ p q, l[0]? = some p ∧ l[1]? = some q ∧
          (create_lines_dataframe lines)[i]? = some (l, some p, some q) := by
  intro lines
  refine ⟨by simp [create_lines_dataframe], ?_⟩
  intro i l hi hlen
  match l, hlen with
  | a :: b :: t, _ =>
    refine ⟨a, b, by simp, by simp, ?_⟩
    simp [create_lines_dataframe, List.getElem?_map, hi, get_point]

/-- C4 witness: the amended row shape at a concrete three-vertex line. -/
theorem c4_witness :
    ∃ p q, ([((0 : ℚ), (0 : ℚ)), (1, 0), (2, 0)] : List Coord)[0]? = some p ∧
      ([((0 : ℚ), (0 : ℚ)), (1, 0), (2, 0)] : List Coord)[1]? = some q ∧
      (create_lines_dataframe [[((0 : ℚ), (0 : ℚ)), (1, 0), (2, 0)]])[0]? =
        some ([((0 : ℚ), (0 : ℚ)), (1, 0), (2, 0)], some p, some q) :=
  (c4_line_table_amended [[((0 : ℚ), (0 : ℚ)), (1, 0), (2, 0)]]).2 0 _ rfl
    (by decide)

/-- C5, counterexample: node (0,0), with intersecting lines
`[(1,0), (2,0)]` (not through the node) and `[(0,0), (0,1)]` (through the
node).  The claim's procedure yields one nearest-vertex segment for the
first line and the second line unchanged; the source instead emits one
segment per non-node vertex — two for the first line, one for the second,
and never an original line. -/
theorem c5_counterexample :
    filter_endpoint_nodes ((0 : ℚ), (0 : ℚ))
        [[((1 : ℚ), (0 : ℚ)), (2, 0)], [(0, 0), (0, 1)]] ≠
      specFilterEndpoint ((0 : ℚ), (0 : ℚ))
        [[((1 : ℚ), (0 : ℚ)), (2, 0)], [(0, 0), (0, 1)]] := by
  decide

/-- C5 (amended): for an endpoint node whose buffer intersects two or
more lines, the resolved list consists of one synthesized segment per
vertex of an intersecting line whose rounded coordinate differs from the
node coordinate, running from that rounded vertex to the node; vertices
equal to the node coordinate are skipped, so no intersecting line is
included as-is. -/
theorem c5_endpoint_assoc_amended :
    ∀ (p : Coord) (ls : List (List Coord)), 2 ≤ ls.length →
      ∀ s : List Coord,
        s ∈ filter_endpoint_nodes p ls ↔
          ∃ l ∈ ls, ∃ v ∈ l, roundCoord v ≠ p ∧ s = [roundCoord v, p] := by
  intro p ls hlen s
  have hne : ¬ls.length = 1 := by omega
  unfold filter_endpoint_nodes
  rw [if_neg hne]
  simp only [List.mem_flatMap, List.mem_map, List.mem_filter,
    decide_eq_true_eq]
  constructor
  · rintro ⟨l, hl, c, ⟨⟨v, hv, rfl⟩, hcp⟩, rfl⟩
    exact ⟨l, hl, v, hv, hcp, rfl⟩
  · rintro ⟨l, hl, v, hv, hvp, rfl⟩
    exact ⟨l, hl, roundCoord v, ⟨⟨v, hv, rfl⟩, hvp⟩, rfl⟩

/-- C5 witness: the amended characterization applied at a concrete
endpoint node with two intersecting lines. -/
theorem c5_witness :
    [((1 : ℚ), (0 : ℚ)), ((0 : ℚ), (0 : ℚ))] ∈
      filter_endpoint_nodes ((0 : ℚ), (0 : ℚ))
        [[((1 : ℚ), (0 : ℚ))], [((0 : ℚ), (1 : ℚ))]] :=
  (c5_endpoint_assoc_amended ((0 : ℚ), (0 : ℚ)) _ (by decide) _).mpr
    ⟨[((1 : ℚ), (0 : ℚ))], by decide, ((1 : ℚ), (0 : ℚ)), by decide, by decide,
      by decide⟩

/-- C6: an endpoint node (`num_coords == 1`) whose buffer intersects
exactly one line resolves to an empty incident list, and no node with an
empty resolved incident-line list survives into the prepared table that
classification consumes. -/
theorem c6_dead_end_drop :
    (∀ (intersect : Coord → List (List Coord)) (n : RawNode),
      n.num_coords = 1 → (intersect n.coord).length = 1 →
        (resolveNode intersect n).node_lines = []) ∧
    ∀ (intersect : Coord → List (List Coord)) (nodes : List RawNode)
      (m : PNode), m ∈ prepare_nodes intersect nodes → m.node_lines ≠ [] := by
  constructor
  · intro f n h1 h2
    simp [resolveNode, h1, filter_endpoint_nodes, h2]
  · intro f nodes m hm
    have h := (List.mem_filter.mp hm).2
    simp only [decide_eq_true_eq] at h
    exact List.length_pos.mp h

/-- C6 witness: a dead-end node resolves to an empty list, and a concrete
prepared node has a nonempty incident list. -/
theorem c6_witness :
    (resolveNode (fun _ => [[((5 : ℚ), (5 : ℚ)), (6, 6)]])
        ⟨((0 : ℚ), (0 : ℚ)), 1, []⟩).node_lines = [] ∧
    (⟨((0 : ℚ), (0 : ℚ)), [[((0 : ℚ), (0 : ℚ)), (1, 1)]]⟩ :
        PNode).node_lines ≠ [] := by
  constructor
  · exact c6_dead_end_drop.1 _ _ rfl rfl
  · exact c6_dead_end_drop.2 (fun _ => [])
      [⟨((0 : ℚ), (0 : ℚ)), 3, [[((0 : ℚ), (0 : ℚ)), (1, 1)]]⟩] _ (by decide)

/-- Rounding to 2 decimals moves a rational by at most 1/200. -/
theorem round2_err (x : ℚ) : |round2 x - x| ≤ 1 / 200 := by
  have h : |100 * x - round (100 * x)| ≤ 1 / 2 := abs_sub_round (100 * x)
  have heq : round2 x - x = -(100 * x - (round (100 * x) : ℚ)) / 100 := by
    unfold round2
    ring_nf
  rw [heq, abs_div, abs_neg]
  rw [abs_of_pos (by norm_num : (0 : ℚ) < 100)]
  linarith

/-- Summing a rounded list moves the sum by at most 1/200 per element. -/
theorem sum_round2_err (l : List ℚ) :
    |(l.map round2).sum - l.sum| ≤ (l.length : ℚ) / 200 := by
  induction l with
  | nil => simp
  | cons a t ih =>
    simp only [List.map_cons, List.sum_cons, List.length_cons]
    have h1 := round2_err a
    have h2 : round2 a + (t.map round2).sum - (a + t.sum) =
        (round2 a - a) + ((t.map round2).sum - t.sum) := by ring
    rw [h2]
    calc |(round2 a - a) + ((t.map round2).sum - t.sum)| ≤
        |round2 a - a| + |(t.map round2).sum - t.sum| := abs_add _ _
      _ ≤ 1 / 200 + (t.length : ℚ) / 200 := add_le_add h1 ih
      _ = ((t.length : ℚ) + 1) / 200 := by ring
      _ = (((t.length + 1 : Nat)) : ℚ) / 200 := by push_cast; ring

/-- The unrounded sector angles of one node sum over the list as the area
ratio does. -/
theorem sum_calculate_node_angles (A : ℚ) (areas : List ℚ) :
    (calculate_node_angles A areas).sum = areas.sum / A * 360 := by
  unfold calculate_node_angles
  induction areas with
  | nil => simp
  | cons a t ih =>
    simp only [List.map_cons, List.sum_cons, ih]
    ring

set_option maxRecDepth 100000 in
/-- C7, counterexample: a node of 24 sectors whose areas exactly
partition the buffer polygon (areas summing to the buffer area 3600000)
but whose 2-decimal-rounded angles sum to 359.89, outside the claimed
360.0 ± 0.1. -/
theorem c7_counterexample :
    (List.replicate 23 ((150049 : ℚ)) ++ [148873]).sum = 3600000 ∧
    ¬|(nodeDegrees 3600000
          (List.replicate 23 ((150049 : ℚ)) ++ [148873])).sum - 360| ≤
        1 / 10 := by
  constructor
  · decide
  · decide

/-- C7 (amended): each reported angle is
`(sector_area / buffer_area) * 360` rounded to 2 decimals, and when the
sector areas partition a positive buffer area the rounded angles sum to
360 within 1/200 per sector — hence within 0.1 for nodes of at most 20
sectors, but not in general. -/
theorem c7_angles_amended :
    ∀ (A : ℚ) (areas : List ℚ), 0 < A → areas.sum = A →
      nodeDegrees A areas = areas.map (fun a => round2 (a / A * 360)) ∧
      |(nodeDegrees A areas).sum - 360| ≤ (areas.length : ℚ) / 200 := by
  intro A areas hA hsum
  constructor
  · simp [nodeDegrees, calculate_node_angles, List.map_map]
  · have h360 : (calculate_node_angles A areas).sum = 360 := by
      rw [sum_calculate_node_angles, hsum, div_self (ne_of_gt hA)]
      norm_num
    have herr := sum_round2_err (calculate_node_angles A areas)
    rw [h360] at herr
    unfold nodeDegrees
    have hlen : ((calculate_node_angles A areas).length : ℚ) =
        (areas.length : ℚ) := by
      unfold calculate_node_angles
      rw [List.length_map]
    rw [hlen] at herr
    exact herr

/-- C7 witness: the amended bound at a four-sector node with angles of
exactly 90 degrees. -/
theorem c7_witness :
    |(nodeDegrees 360 [(90 : ℚ), 90, 90, 90]).sum - 360| ≤ 4 / 200 := by
  have h := c7_angles_amended 360 [(90 : ℚ), 90, 90, 90] (by norm_num)
    (by norm_num)
  simpa using h.2

/-- C8, counterexample: a prepared node with 3 incident lines whose
sector decomposition produced only 2 sectors is not excluded — the
analysis table still contains its row. -/
theorem c8_counterexample :
    (create_analysis_dataframe 15
        [⟨((0 : ℚ), (0 : ℚ)), 3, 360, [180, 180]⟩]).length = 1 ∧
    (nodeDegrees 360 [(180 : ℚ), 180]).length < 3 := by
  constructor
  · rfl
  · decide

/-- C8 (amended): no node is excluded by the analysis stage: every
prepared node — including one whose sector count disagrees with its
incident-line count — produces exactly one row of the classification
table, computed by the `num_lines`-based rules, and the run does not
fail. -/
theorem c8_no_exclusion_amended :
    ∀ (tol : ℚ) (nodes : List PNodeData),
      (create_analysis_dataframe tol nodes).length = nodes.length ∧
      create_analysis_dataframe tol nodes = nodes.map (analysisRow tol) := by
  intro tol nodes
  exact ⟨List.length_map _ _, rfl⟩

/-- C9: on an empty classification table the summary aggregator still
returns a full summary row; every ratio — `ratio_180_90` in particular —
is null (polars' NaN from the 0/0 float division), and no
division-by-zero error is raised (the aggregator is a total function into
`SummaryRow`). -/
theorem c9_empty_summary :
    ∀ (tol : ℚ) (name : String),
      create_node_summary_row tol name [] =
        { terrain := name, n_bar := none, n_bar_std := none, node_count := 0,
          ratio_T := none, ratio_Y := none, ratio_X := none,
          ratio_hash := none, ratio_180_90 := none, regularity := none } := by
  intro tol name
  rfl

/-- C10: `clip_lines_to_points` ignores its `buffer_size` parameter — the
buffer radius actually used is the literal 2 — so its output is the same
for any two values of the parameter, whatever the geometry oracle does. -/
theorem c10_buffer_size_unused :
    ∀ (ops : GeomOps) (pts : List Coord) (lines : List (List Coord))
      (b1 b2 : ℤ),
      clip_lines_to_points ops pts lines b1 =
        clip_lines_to_points ops pts lines b2 := by
  intro ops pts lines b1 b2
  rfl

end SymbolicPlane
